import Mathlib

/-
Verification development for the Google Compute Engine SSH hook
(providers/google/src/airflow/providers/google/cloud/hooks/compute_ssh.py).

The Python source is shallowly embedded: each relevant function of the
source file is translated into an executable Lean definition.  External
collaborators (compute API, OS Login API, paramiko transport) are passed
in as oracles, so that the control flow of the hook itself is modelled
exactly while the network is abstract.
-/

set_option maxHeartbeats 1000000

namespace ComputeSSH

/-! ### Python exception model

The outer retry loop of get_conn (compute_ssh.py lines 242-280) catches
the tuple (HttpError, AirflowException, SSHException).  HttpError carries
a response status; AirflowException carries a message; any other
exception class is represented by otherError and is not caught. -/

inductive PyExc where
  | httpError (status : Nat)
  | airflowException (msg : String)
  | sshException (msg : String)
  | otherError (name : String)
deriving DecidableEq

/-- Python substring test helper: does the list start with the pattern. -/
def startsWithChars : List Char → List Char → Bool
  | _, [] => true
  | [], _ :: _ => false
  | a :: as, b :: bs => a == b && startsWithChars as bs

/-- Python substring test helper: does needle occur inside the list. -/
def hasSubChars (needle : List Char) : List Char → Bool
  | [] => needle.isEmpty
  | c :: rest => startsWithChars (c :: rest) needle || hasSubChars needle rest

/-- Python operator (needle in hay) on strings. -/
def strContainsSub (hay needle : String) : Bool :=
  hasSubChars needle.data hay.data

/-- Membership of the exception in the except tuple
(HttpError, AirflowException, SSHException) at line 267. -/
def caughtByExcept : PyExc → Bool
  | .httpError _ => true
  | .airflowException _ => true
  | .sshException _ => true
  | .otherError _ => false

/-- isinstance(exc, HttpError) and exc.resp.status == 412 (line 268). -/
def isHttp412 : PyExc → Bool
  | .httpError s => s == 412
  | _ => false

/-- isinstance(exc, AirflowException) and
"412 PRECONDITION FAILED" in str(exc) (line 269). -/
def isAirflow412 : PyExc → Bool
  | .airflowException m => strContainsSub m "412 PRECONDITION FAILED"
  | _ => false

/-- isinstance(exc, SSHException) (line 272). -/
def isSSHException : PyExc → Bool
  | .sshException _ => true
  | _ => false

/-- A caught exception lets the outer loop continue (rather than re-raise)
exactly when the handler body at lines 268-275 does not hit the bare
raise: the 412-precondition test or the SSHException test succeeds.
An exception outside the except tuple propagates as well. -/
def exceptionContinuesLoop (e : PyExc) : Bool :=
  caughtByExcept e && (isHttp412 e || isAirflow412 e || isSSHException e)

/-- Retryability as the specification words it (spec section 4.5 / 7):
a publish-side precondition-failed response (HTTP 412 status or an
AirflowException whose text contains the 412 marker) or any
handshake-layer SSHException.  Stated independently of the code to be
compared with exceptionContinuesLoop. -/
def RetryableSpec : PyExc → Prop
  | .httpError s => s = 412
  | .airflowException m => strContainsSub m "412 PRECONDITION FAILED" = true
  | .sshException _ => True
  | .otherError _ => False

instance : DecidablePred RetryableSpec := by
  intro e
  cases e <;> simp [RetryableSpec] <;> infer_instance

/-! ### Outer retry loop of get_conn (lines 240-283)

The body of one iteration - authorize (metadata or os-login), build the
optional proxy command and call _connect_to_instance - is abstracted by
an oracle giving, per iteration index, the exception that the cycle
raises (none when the cycle returns a client).  Events record each
publish+handshake cycle together with the public key material it uses,
the key generation, the address lookup, and the jittered backoff sleep
(random.randint(0, max_delay) at line 278). -/

inductive GEvent where
  | resolveAddress (internal : Bool)
  | genKey (pub : String)
  | cycle (pub : String)
  | sleepRand
deriving DecidableEq

inductive GResult where
  | established (pub host : String)
  | raised (e : PyExc)
  | noClient
deriving DecidableEq

/-- AirflowException raised at line 277 when the budget is exhausted. -/
def maxRetriesExc : PyExc :=
  .airflowException "Maximum retries exceeded. Aborting operation."

/-- for retry in range(self.max_retries + 1) (lines 242-280), with fuel
counting the iterations the range still allows.  On a cycle exception the
handler either continues (after the raise-on-last-attempt check at line
276 and the jittered sleep at lines 278-280) or re-raises. -/
def outerLoop (outcome : Nat → Option PyExc) (pub host : String) (maxRetries : Nat) :
    Nat → Nat → List GEvent × GResult
  | _retry, 0 => ([], GResult.noClient)
  | retry, fuel + 1 =>
    match outcome retry with
    | none => ([GEvent.cycle pub], GResult.established pub host)
    | some e =>
      if exceptionContinuesLoop e then
        if retry = maxRetries then
          ([GEvent.cycle pub], GResult.raised maxRetriesExc)
        else
          let r := outerLoop outcome pub host maxRetries (retry + 1) fuel
          (GEvent.cycle pub :: GEvent.sleepRand :: r.1, r.2)
      else
        ([GEvent.cycle pub], GResult.raised e)

/-- The whole retry loop, started at retry = 0 with the
max_retries + 1 iterations that range(max_retries + 1) yields. -/
def get_conn_loop (outcome : Nat → Option PyExc) (pub host : String)
    (maxRetries : Nat) : List GEvent × GResult :=
  outerLoop outcome pub host maxRetries 0 (maxRetries + 1)

def isGenKey : GEvent → Bool
  | .genKey _ => true
  | _ => false

def isCycle : GEvent → Bool
  | .cycle _ => true
  | _ => false

def isSleepRand : GEvent → Bool
  | .sleepRand => true
  | _ => false

def countGenKeys (l : List GEvent) : Nat := l.countP isGenKey

def countCycles (l : List GEvent) : Nat := l.countP isCycle

def countSleeps (l : List GEvent) : Nat := l.countP isSleepRand

def cycleKeyOf : GEvent → Option String
  | .cycle k => some k
  | _ => none

/-- The public key material used by each publish+handshake cycle,
in order. -/
def cycleKeys (l : List GEvent) : List String := l.filterMap cycleKeyOf

/-! ### Hook configuration and the front part of get_conn (lines 205-238)

An attribute holding a string-or-None Python value is an Option String;
Python truthiness of such a value (None and the empty string are falsy)
is pyTruthy. -/

/-- Python truthiness of a string-or-None attribute. -/
def pyTruthy : Option String → Bool
  | none => false
  | some s => !(s == "")

/-- The attributes of ComputeEngineSSHHook that get_conn reads
(after _load_connection_config has run). -/
structure HookConfig where
  instance_name : Option String
  zone : Option String
  project_id : Option String
  hostname : Option String
  use_internal_ip : Bool
  use_iap_tunnel : Bool
  use_oslogin : Bool
  max_retries : Nat
deriving DecidableEq

/-- The external collaborators get_conn consults: the project id of the
compute hook (line 209) and get_instance_address keyed by the
use_internal_ip argument (lines 229-234). -/
structure Collaborators where
  computeProjectId : Option String
  instanceAddress : Bool → String

/-- if not self.project_id: self.project_id = self._compute_hook.project_id
(lines 208-209). -/
def projectFallback (cfg : HookConfig) (collab : Collaborators) : HookConfig :=
  if pyTruthy cfg.project_id then cfg
  else { cfg with project_id := collab.computeProjectId }

/-- getattr(self, k) for the three required parameter names (line 211). -/
def getattrTarget (cfg : HookConfig) : String → Option String
  | "instance_name" => cfg.instance_name
  | "zone" => cfg.zone
  | "project_id" => cfg.project_id
  | _ => none

/-- missing_fields = [k for k in ["instance_name", "zone", "project_id"]
if not getattr(self, k)] (line 211). -/
def missingFields (cfg : HookConfig) : List String :=
  (["instance_name", "zone", "project_id"]).filter
    (fun k => !pyTruthy (getattrTarget cfg k))

/-- Python repr of a list of strings, as interpolated into the f-string
of the raise at lines 213-216. -/
def pyListRepr (l : List String) : String :=
  "[" ++ String.intercalate ", " (l.map (fun s => "'" ++ s ++ "'")) ++ "]"

/-- The message of the AirflowException raised at lines 213-216. -/
def missingMsg (l : List String) : String :=
  "Required parameters are missing: " ++ pyListRepr l ++
    ". These parameters be passed either as keyword parameter or as extra field in Airflow connection definition. Both are not set!"

/-- Address resolution of get_conn, lines 228-236: if not self.hostname,
query get_instance_address with
use_internal_ip = self.use_internal_ip or self.use_iap_tunnel,
else use self.hostname.  The returned event list records whether a
directory lookup happened and with which internal flag. -/
def resolve_hostname (cfg : HookConfig) (collab : Collaborators) :
    List GEvent × String :=
  if !pyTruthy cfg.hostname then
    ([GEvent.resolveAddress (cfg.use_internal_ip || cfg.use_iap_tunnel)],
      collab.instanceAddress (cfg.use_internal_ip || cfg.use_iap_tunnel))
  else
    ([], cfg.hostname.getD "")

/-- _generate_ssh_key (lines 344-353): the RSA material produced by
paramiko is abstracted as a string; the published public key is
f-string "{name} {base64} {user}" with name "ssh-rsa"
(RSAKey.generate(2048).get_name()).  Returns (private, public). -/
def generate_ssh_key (keyMaterial user : String) : String × String :=
  (keyMaterial, "ssh-rsa " ++ keyMaterial ++ " " ++ user)

/-- get_conn (lines 205-283).  The key-material generator gen and the
per-cycle outcome oracle stand for paramiko and the network; everything
else follows the source control flow: project-id fallback, the
missing-required-parameters raise, address resolution, a single key
generation, then the outer retry loop. -/
def get_conn (cfg : HookConfig) (user : String) (collab : Collaborators)
    (gen : Nat → String) (outcome : Nat → Option PyExc) :
    List GEvent × GResult :=
  let cfg2 := projectFallback cfg collab
  if !pyTruthy cfg2.instance_name || !pyTruthy cfg2.zone || !pyTruthy cfg2.project_id then
    ([], GResult.raised (PyExc.airflowException (missingMsg (missingFields cfg2))))
  else
    let hr := resolve_hostname cfg2 collab
    let pk := generate_ssh_key (gen 0) user
    let r := get_conn_loop outcome pk.2 hr.2 cfg2.max_retries
    (hr.1 ++ GEvent.genKey pk.2 :: r.1, r.2)

/-! ### The inner handshake loop _connect_to_instance (lines 285-307)
and the gcloud authorization scope (lines 44-68)

_GCloudAuthorizedSSHClient.connect first enters the
provide_authorized_gcloud context (decorator.enter, lines 54-55) and
then performs the underlying paramiko connect, which may raise; close
and the context exit leave the scope only if the decorator is still
recorded (lines 58-68).  A ScopeLog counts scope entries and exits
across a run. -/

structure ScopeLog where
  entered : Nat
  exited : Nat
deriving DecidableEq

def scopeEnter (s : ScopeLog) : ScopeLog := ⟨s.entered + 1, s.exited⟩

def scopeExit (s : ScopeLog) : ScopeLog := ⟨s.entered, s.exited + 1⟩

/-- The per-client state: whether self.decorator is currently set. -/
structure GClient where
  decoratorActive : Bool
deriving DecidableEq

/-- close (lines 58-62): exit the decorator scope if one is recorded,
then clear it. -/
def gclient_close (log : ScopeLog) (c : GClient) : ScopeLog × GClient :=
  if c.decoratorActive then (scopeExit log, ⟨false⟩) else (log, ⟨false⟩)

/-- What one underlying paramiko connect call does on attempt t:
succeed, raise paramiko.SSHException (the only class the inner except
catches, line 302), or raise some other exception. -/
inductive ConnectOutcome where
  | ok
  | sshExc
  | otherExc (e : PyExc)
deriving DecidableEq

inductive IEvent where
  | attempt (t : Nat)
  | sleep (d : Nat)
deriving DecidableEq

inductive IResult where
  | connected (c : GClient)
  | sshRaised
  | otherRaised (e : PyExc)
  | cannotConnect
deriving DecidableEq

/-- for time_to_wait in range(max_time_to_wait + 1) (lines 288-306):
each iteration builds a fresh client, whose connect first enters the
gcloud scope and then attempts the handshake; on paramiko.SSHException
the attempt either re-raises (final attempt) or falls through to
time.sleep(time_to_wait).  No exit of the scope appears on any failure
path: the failed client is simply abandoned. -/
def connect_to_instance_aux (outcome : Nat → ConnectOutcome) (maxT : Nat) :
    Nat → Nat → ScopeLog → List IEvent × ScopeLog × IResult
  | _t, 0, log => ([], log, IResult.cannotConnect)
  | t, fuel + 1, log =>
    let log1 := scopeEnter log
    match outcome t with
    | .ok => ([IEvent.attempt t], log1, IResult.connected ⟨true⟩)
    | .otherExc e => ([IEvent.attempt t], log1, IResult.otherRaised e)
    | .sshExc =>
      if t = maxT then ([IEvent.attempt t], log1, IResult.sshRaised)
      else
        let r := connect_to_instance_aux outcome maxT (t + 1) fuel log1
        (IEvent.attempt t :: IEvent.sleep t :: r.1, r.2)

/-- _connect_to_instance with max_time_to_wait = 5 (line 287), starting
from a fresh scope log. -/
def connect_to_instance (outcome : Nat → ConnectOutcome) :
    List IEvent × ScopeLog × IResult :=
  connect_to_instance_aux outcome 5 0 6 ⟨0, 0⟩

/-- A full run: _connect_to_instance followed by the caller closing the
returned session (when one was returned), which is the only place the
successful attempt exits its scope. -/
def run_then_close (outcome : Nat → ConnectOutcome) : ScopeLog :=
  let r := connect_to_instance outcome
  match r.2.2 with
  | .connected c => (gclient_close r.2.1 c).1
  | _ => r.2.1

def attemptsOf (l : List IEvent) : List Nat :=
  l.filterMap (fun e => match e with | .attempt t => some t | _ => none)

def sleepsOf (l : List IEvent) : List Nat :=
  l.filterMap (fun e => match e with | .sleep d => some d | _ => none)

/-! ### Metadata credential injection (lines 309-329) -/

structure MetadataItem where
  key : String
  value : String
deriving DecidableEq

/-- The for/else loop at lines 318-325: mutate the first item whose key
is "ssh-keys" by prepending keys to its value and stop; none signals
that the for completed without break. -/
def injectIntoItems (keys : String) : List MetadataItem → Option (List MetadataItem)
  | [] => none
  | item :: rest =>
    if item.key == "ssh-keys" then
      some ({ item with value := keys ++ item.value } :: rest)
    else
      match injectIntoItems keys rest with
      | some rest2 => some (item :: rest2)
      | none => none

/-- _authorize_compute_engine_instance_metadata (lines 309-329) acting on
the items list of the instance metadata: keys = user + ":" + pubkey +
a newline; prepend to the first "ssh-keys" item, or append a fresh item
when the for/else fell through. -/
def authorize_compute_engine_instance_metadata (user pubkey : String)
    (items : List MetadataItem) : List MetadataItem :=
  let keys := user ++ ":" ++ pubkey ++ "\n"
  match injectIntoItems keys items with
  | some items2 => items2
  | none => items ++ [⟨"ssh-keys", keys⟩]

/-! ### OS Login registration (lines 331-342) -/

structure PosixAccount where
  username : String
deriving DecidableEq

structure LoginProfile where
  posix_accounts : List PosixAccount
deriving DecidableEq

/-- The ssh_public_key dict built at line 335. -/
structure SshPublicKeyRecord where
  key : String
  expiration_time_usec : Nat
deriving DecidableEq

/-- _authorize_os_login (lines 331-342), with time.time() modelled as an
integer number of seconds now: expiration =
int((time.time() + self.expire_time) * 1000000), and the returned user
is response.login_profile.posix_accounts[0].username (none when the
profile has no account, where Python would raise IndexError). -/
def authorize_os_login (now expire_time : Nat) (pubkey : String)
    (profile : LoginProfile) : SshPublicKeyRecord × Option String :=
  let expiration := (now + expire_time) * 1000000
  (⟨pubkey, expiration⟩, (profile.posix_accounts.head?).map PosixAccount.username)

/-! ### _load_connection_config and _boolify (lines 153-192) -/

/-- A Python value as it can come out of _get_field on the connection
extras: a bool, a string, None (also the value used for an absent
field), or anything else. -/
inductive PyVal where
  | pybool (b : Bool)
  | pystr (s : String)
  | pynone
  | pyother (tag : String)
deriving DecidableEq

/-- _boolify (lines 154-162). -/
def _boolify : PyVal → Bool
  | .pybool b => b
  | .pystr s =>
    if s.toLower == "false" then false
    else if s.toLower == "true" then true
    else false
  | _ => false

/-- The three boolean attributes _load_connection_config overwrites. -/
structure LoadedBools where
  use_internal_ip : Bool
  use_iap_tunnel : Bool
  use_oslogin : Bool
deriving DecidableEq

/-- Lines 185-187 of _load_connection_config for a gcpssh-typed
connection: the three attributes are assigned
_boolify(self._compute_hook._get_field(...)) with no default, ignoring
their previous values. -/
def load_connection_config_bools (_prev : LoadedBools)
    (f_use_internal_ip f_use_iap_tunnel f_use_oslogin : PyVal) : LoadedBools :=
  { use_internal_ip := _boolify f_use_internal_ip
    use_iap_tunnel := _boolify f_use_iap_tunnel
    use_oslogin := _boolify f_use_oslogin }

/-! ### Concrete inputs used by counterexamples and witnesses -/

/-- Collaborators for concrete runs. -/
def exCollab : Collaborators := ⟨some "p1", fun _ => "10.0.0.7"⟩

/-- A fully configured hook with max_retries = 2. -/
def exCfg : HookConfig :=
  { instance_name := some "vm1"
    zone := some "us-central1-a"
    project_id := some "p1"
    hostname := some "10.0.0.5"
    use_internal_ip := false
    use_iap_tunnel := false
    use_oslogin := true
    max_retries := 2 }

/-- Key-material generator giving distinct material per call index. -/
def exGen : Nat → String := fun n => "KEY" ++ toString n

/-- Cycle outcomes: the first publish+handshake cycle raises a
handshake SSHException, the second succeeds. -/
def exOutcome : Nat → Option PyExc := fun i =>
  if i = 0 then some (PyExc.sshException "handshake failed") else none

/-- Inner-loop outcomes: attempt 0 raises paramiko.SSHException, every
later attempt succeeds. -/
def c3Outcome : Nat → ConnectOutcome := fun t =>
  if t = 0 then ConnectOutcome.sshExc else ConnectOutcome.ok

/-- Inner-loop outcomes: attempts 0 and 1 raise paramiko.SSHException,
attempt 2 succeeds. -/
def c3wOutcome : Nat → ConnectOutcome := fun t =>
  if t < 2 then ConnectOutcome.sshExc else ConnectOutcome.ok

/-- Inner-loop outcomes: every attempt raises paramiko.SSHException. -/
def constFailOutcome : Nat → ConnectOutcome := fun _ => ConnectOutcome.sshExc

/-- A hook configuration with instance_name unset and project_id set to
the empty string (both falsy in Python). -/
def badCfg : HookConfig := { exCfg with instance_name := none, project_id := some "" }

/-- Collaborators whose compute hook also has no project id. -/
def badCollab : Collaborators := ⟨none, fun _ => ""⟩

/-! ### Helper lemmas about the outer retry loop -/

/-- The outer loop generates no key and every cycle it runs uses the one
public key it was given. -/
theorem outerLoop_keys (outcome : Nat → Option PyExc) (pub host : String)
    (maxR : Nat) :
    ∀ fuel retry,
      countGenKeys (outerLoop outcome pub host maxR retry fuel).1 = 0 ∧
      ∀ k, k ∈ cycleKeys (outerLoop outcome pub host maxR retry fuel).1 → k = pub := by
  intro fuel
  induction fuel with
  | zero =>
    intro retry
    simp [outerLoop, countGenKeys, cycleKeys]
  | succ f ih =>
    intro retry
    simp only [outerLoop]
    cases houtcome : outcome retry with
    | none =>
      simp [countGenKeys, cycleKeys, cycleKeyOf, isGenKey,
        List.countP_cons, List.filterMap_cons]
    | some e =>
      by_cases hc : exceptionContinuesLoop e = true
      · simp only [hc, if_true]
        by_cases hr : retry = maxR
        · simp [hr, countGenKeys, cycleKeys, cycleKeyOf, isGenKey,
            List.countP_cons, List.filterMap_cons]
        · simp only [hr, if_false, if_neg hr]
          have := ih (retry + 1)
          constructor
          · simpa [countGenKeys, isGenKey, List.countP_cons] using this.1
          · intro k hk
            simp only [cycleKeys, List.filterMap_cons, cycleKeyOf] at hk
            rcases List.mem_cons.mp hk with h | h
            · exact h
            · exact this.2 k h
      · simp [hc, countGenKeys, cycleKeys, cycleKeyOf, isGenKey,
          List.countP_cons, List.filterMap_cons]

/-- Whenever the loop has at least one permitted iteration it performs at
least one publish+handshake cycle. -/
theorem outerLoop_one_cycle_lb (outcome : Nat → Option PyExc) (pub host : String)
    (maxR retry fuel : Nat) (h : 0 < fuel) :
    1 ≤ countCycles (outerLoop outcome pub host maxR retry fuel).1 := by
  cases fuel with
  | zero => omega
  | succ f =>
    simp only [outerLoop]
    cases houtcome : outcome retry with
    | none => simp [countCycles, isCycle, List.countP_cons]
    | some e =>
      by_cases hc : exceptionContinuesLoop e = true
      · by_cases hr : retry = maxR
        · simp [hc, hr, countCycles, isCycle, List.countP_cons]
        · simp [hc, hr, countCycles, isCycle, List.countP_cons, isSleepRand]
      · simp [hc, countCycles, isCycle, List.countP_cons]

/-- The resolve step contributes no cycle, sleep or key-generation
event. -/
theorem resolve_hostname_counts (c : HookConfig) (co : Collaborators) :
    countCycles (resolve_hostname c co).1 = 0 ∧
    countSleeps (resolve_hostname c co).1 = 0 ∧
    countGenKeys (resolve_hostname c co).1 = 0 ∧
    cycleKeys (resolve_hostname c co).1 = [] := by
  unfold resolve_hostname
  split <;>
    simp [countCycles, countSleeps, countGenKeys, cycleKeys,
      isCycle, isSleepRand, isGenKey, cycleKeyOf, List.countP_cons,
      List.filterMap_cons]

/-- The missing-required-parameters guard of get_conn is passed exactly
when the missing_fields list is empty. -/
theorem guard_iff_missing (c : HookConfig) :
    ((!pyTruthy c.instance_name || !pyTruthy c.zone || !pyTruthy c.project_id)
        = false)
      ↔ missingFields c = [] := by
  cases h1 : pyTruthy c.instance_name <;> cases h2 : pyTruthy c.zone <;>
    cases h3 : pyTruthy c.project_id <;>
      simp_all [missingFields, getattrTarget, List.filter_cons]

/-! ### Claim theorems -/

/-- Claim C1, counterexample.  In a run of get_conn whose outer loop
executes two publish+handshake cycles (the first cycle fails with a
handshake SSHException, the second succeeds), only one key generation
happens, and both cycles publish the same public key material - so the
claim that a fresh keypair is generated at the start of every cycle and
that the published key material differs across cycles is false. -/
theorem C1_single_key_cex :
    cycleKeys (get_conn exCfg "root" exCollab exGen exOutcome).1 =
      ["ssh-rsa KEY0 root", "ssh-rsa KEY0 root"] ∧
    countGenKeys (get_conn exCfg "root" exCollab exGen exOutcome).1 = 1 ∧
    ¬ (cycleKeys (get_conn exCfg "root" exCollab exGen exOutcome).1).Nodup := by
  decide

/-- Claim C1, amended: in every run of get_conn the keypair is generated
at most once (exactly once when the required-parameter guard passes),
before the retry loop, and every publish+handshake cycle uses that same
single public key - key material is never refreshed between cycles. -/
theorem C1_single_key_amended :
    ∀ (cfg : HookConfig) (user : String) (collab : Collaborators)
      (gen : Nat → String) (outcome : Nat → Option PyExc),
    countGenKeys (get_conn cfg user collab gen outcome).1 ≤ 1 ∧
    (∀ k, k ∈ cycleKeys (get_conn cfg user collab gen outcome).1 →
      k = (generate_ssh_key (gen 0) user).2) := by
  intro cfg user collab gen outcome
  by_cases hguard :
      (!pyTruthy (projectFallback cfg collab).instance_name ||
        !pyTruthy (projectFallback cfg collab).zone ||
        !pyTruthy (projectFallback cfg collab).project_id) = true
  · simp [get_conn, hguard, countGenKeys, cycleKeys]
  · have hrc := resolve_hostname_counts (projectFallback cfg collab) collab
    have hkeys := outerLoop_keys outcome
      (generate_ssh_key (gen 0) user).2
      (resolve_hostname (projectFallback cfg collab) collab).2
      (projectFallback cfg collab).max_retries
      ((projectFallback cfg collab).max_retries + 1) 0
    have hconn : get_conn cfg user collab gen outcome =
        ((resolve_hostname (projectFallback cfg collab) collab).1 ++
          GEvent.genKey (generate_ssh_key (gen 0) user).2 ::
            (get_conn_loop outcome (generate_ssh_key (gen 0) user).2
              (resolve_hostname (projectFallback cfg collab) collab).2
              (projectFallback cfg collab).max_retries).1,
          (get_conn_loop outcome (generate_ssh_key (gen 0) user).2
            (resolve_hostname (projectFallback cfg collab) collab).2
            (projectFallback cfg collab).max_retries).2) := by
      simp [get_conn, hguard]
    rw [hconn]
    constructor
    · have h0 := hrc.2.2.1
      simp only [countGenKeys] at h0 ⊢
      rw [List.countP_append, h0, List.countP_cons]
      have h1 := hkeys.1
      simp only [countGenKeys] at h1
      simp only [get_conn_loop]
      rw [h1]
      simp [isGenKey]
    · intro k hk
      simp only [cycleKeys, List.filterMap_append, List.filterMap_cons,
        cycleKeyOf] at hk
      have h0 := hrc.2.2.2
      simp only [cycleKeys] at h0
      rw [h0] at hk
      simp only [List.nil_append] at hk
      have h2 := hkeys.2
      simp only [cycleKeys, get_conn_loop] at h2
      exact h2 k hk

/-- Claim C1, witness for the amended theorem at a concrete input. -/
theorem C1_single_key_amended_witness :
    "ssh-rsa KEY0 root" ∈ cycleKeys (get_conn exCfg "root" exCollab exGen exOutcome).1 ∧
    "ssh-rsa KEY0 root" = (generate_ssh_key (exGen 0) "root").2 :=
  ⟨by decide,
    (C1_single_key_amended exCfg "root" exCollab exGen exOutcome).2
      "ssh-rsa KEY0 root" (by decide)⟩

/-- Rewriting helper: a range shifted by t, peeled by one element. -/
theorem map_add_range_succ (t n : Nat) :
    (List.range (n + 1)).map (fun x => t + x) =
      t :: (List.range n).map (fun x => t + 1 + x) := by
  rw [List.range_succ_eq_map, List.map_cons, List.map_map]
  have hfun : ((fun x => t + x) ∘ Nat.succ) = fun x => t + 1 + x := by
    funext j
    simp only [Function.comp]
    omega
  rw [hfun]
  norm_num

/-- Inner loop, success case: if attempts t..t+k-1 raise
paramiko.SSHException and attempt t+k succeeds within the budget, the
loop returns a connected client after attempts t..t+k; every attempt
entered a gcloud authorization scope and none has been exited. -/
theorem connect_aux_ok_after_fails :
    ∀ (k : Nat) (outcome : Nat → ConnectOutcome) (maxT t fuel : Nat) (log : ScopeLog),
    t + k ≤ maxT → k < fuel →
    (∀ j, j < k → outcome (t + j) = ConnectOutcome.sshExc) →
    outcome (t + k) = ConnectOutcome.ok →
    attemptsOf (connect_to_instance_aux outcome maxT t fuel log).1 =
      (List.range (k + 1)).map (fun x => t + x) ∧
    (connect_to_instance_aux outcome maxT t fuel log).2.1.entered =
      log.entered + (k + 1) ∧
    (connect_to_instance_aux outcome maxT t fuel log).2.1.exited = log.exited ∧
    (connect_to_instance_aux outcome maxT t fuel log).2.2 =
      IResult.connected ⟨true⟩ := by
  intro k
  induction k with
  | zero =>
    intro outcome maxT t fuel log hle hfuel hfails hok
    cases fuel with
    | zero => omega
    | succ f =>
      have hok0 : outcome t = ConnectOutcome.ok := by simpa using hok
      have hr1 : List.range 1 = [0] := by decide
      simp [connect_to_instance_aux, hok0, scopeEnter, attemptsOf,
        List.filterMap_cons, hr1]
  | succ k ih =>
    intro outcome maxT t fuel log hle hfuel hfails hok
    cases fuel with
    | zero => omega
    | succ f =>
      have h0 : outcome t = ConnectOutcome.sshExc := by
        simpa using hfails 0 (by omega)
      have hne : t ≠ maxT := by omega
      have ihx := ih outcome maxT (t + 1) f (scopeEnter log) (by omega) (by omega)
        (fun j hj => by
          have h1 := hfails (j + 1) (by omega)
          have harith : t + (j + 1) = t + 1 + j := by omega
          rwa [harith] at h1)
        (by
          have harith : t + (k + 1) = t + 1 + k := by omega
          rwa [harith] at hok)
      have step : connect_to_instance_aux outcome maxT t (f + 1) log =
          (IEvent.attempt t :: IEvent.sleep t ::
            (connect_to_instance_aux outcome maxT (t + 1) f (scopeEnter log)).1,
            (connect_to_instance_aux outcome maxT (t + 1) f (scopeEnter log)).2) := by
        simp [connect_to_instance_aux, h0, hne]
      rw [step]
      refine ⟨?_, ?_, ?_, ?_⟩
      · rw [map_add_range_succ]
        simp only [attemptsOf] at ihx ⊢
        simp [List.filterMap_cons, ihx.1]
      · show (connect_to_instance_aux outcome maxT (t + 1) f (scopeEnter log)).2.1.entered = _
        rw [ihx.2.1]
        simp only [scopeEnter]
        omega
      · show (connect_to_instance_aux outcome maxT (t + 1) f (scopeEnter log)).2.1.exited = _
        rw [ihx.2.2.1]
        simp [scopeEnter]
      · exact ihx.2.2.2

/-- Inner loop, exhaustion case: if every attempt up to maxT raises
paramiko.SSHException, the loop makes the attempts t..maxT with sleeps
t..maxT-1 in between, re-raises on the final attempt, and every attempt
leaves its gcloud scope entered and unexited. -/
theorem connect_aux_all_fail :
    ∀ (fuel : Nat) (outcome : Nat → ConnectOutcome) (maxT t : Nat) (log : ScopeLog),
    t + fuel = maxT + 1 → 0 < fuel →
    (∀ j, j ≤ maxT → outcome j = ConnectOutcome.sshExc) →
    attemptsOf (connect_to_instance_aux outcome maxT t fuel log).1 =
      (List.range fuel).map (fun x => t + x) ∧
    sleepsOf (connect_to_instance_aux outcome maxT t fuel log).1 =
      (List.range (fuel - 1)).map (fun x => t + x) ∧
    (connect_to_instance_aux outcome maxT t fuel log).2.1.entered =
      log.entered + fuel ∧
    (connect_to_instance_aux outcome maxT t fuel log).2.1.exited = log.exited ∧
    (connect_to_instance_aux outcome maxT t fuel log).2.2 = IResult.sshRaised := by
  intro fuel
  induction fuel with
  | zero =>
    intro outcome maxT t log hsum hpos hfails
    omega
  | succ f ih =>
    intro outcome maxT t log hsum hpos hfails
    have hft : outcome t = ConnectOutcome.sshExc := hfails t (by omega)
    cases f with
    | zero =>
      have hteq : t = maxT := by omega
      subst hteq
      have hr1 : List.range 1 = [0] := by decide
      simp [connect_to_instance_aux, hft, scopeEnter, attemptsOf, sleepsOf,
        List.filterMap_cons, hr1]
    | succ g =>
      have hne : t ≠ maxT := by omega
      have ihx := ih outcome maxT (t + 1) (scopeEnter log) (by omega) (by omega) hfails
      have step : connect_to_instance_aux outcome maxT t (g + 1 + 1) log =
          (IEvent.attempt t :: IEvent.sleep t ::
            (connect_to_instance_aux outcome maxT (t + 1) (g + 1) (scopeEnter log)).1,
            (connect_to_instance_aux outcome maxT (t + 1) (g + 1) (scopeEnter log)).2) := by
        simp [connect_to_instance_aux, hft, hne]
      rw [step]
      refine ⟨?_, ?_, ?_, ?_, ?_⟩
      · rw [map_add_range_succ]
        simp only [attemptsOf] at ihx ⊢
        simp [List.filterMap_cons, ihx.1]
      · have hpred : g + 1 + 1 - 1 = (g + 1 - 1) + 1 := by omega
        rw [hpred, map_add_range_succ]
        simp only [sleepsOf] at ihx ⊢
        simp [List.filterMap_cons, ihx.2.1]
      · show (connect_to_instance_aux outcome maxT (t + 1) (g + 1) (scopeEnter log)).2.1.entered = _
        rw [ihx.2.2.1]
        simp only [scopeEnter]
        omega
      · show (connect_to_instance_aux outcome maxT (t + 1) (g + 1) (scopeEnter log)).2.1.exited = _
        rw [ihx.2.2.2.1]
        simp [scopeEnter]
      · exact ihx.2.2.2.2

/-- Claim C3, counterexample.  Run the inner loop with attempt 0 failing
with paramiko.SSHException and attempt 1 succeeding, then let the caller
close the returned session: two gcloud authorization scopes were
entered (one per connect attempt) but only one was ever exited - the
scope entered by the failed attempt is left open, so the claim that the
scope is exited on every exit path of every attempt is false. -/
theorem C3_scope_leak_cex :
    (connect_to_instance c3Outcome).2.1 = ⟨2, 0⟩ ∧
    run_then_close c3Outcome = ⟨2, 1⟩ := by
  decide

/-- Claim C3, amended: the gcloud authorization scope entered by a
successful connect is exited when the caller closes the session, but a
connect attempt that fails leaves its scope entered forever - after k
failed attempts and one success, k + 1 scopes were entered and only one
is ever exited; when all 6 attempts fail, 6 scopes are entered and none
is exited. -/
theorem C3_scope_amended :
    (∀ (outcome : Nat → ConnectOutcome) (k : Nat), k ≤ 5 →
      (∀ t, t < k → outcome t = ConnectOutcome.sshExc) →
      outcome k = ConnectOutcome.ok →
      (connect_to_instance outcome).2.1 = ⟨k + 1, 0⟩ ∧
      run_then_close outcome = ⟨k + 1, 1⟩) ∧
    (∀ outcome : Nat → ConnectOutcome,
      (∀ t, t ≤ 5 → outcome t = ConnectOutcome.sshExc) →
      (connect_to_instance outcome).2.1 = ⟨6, 0⟩ ∧
      run_then_close outcome = ⟨6, 0⟩) := by
  constructor
  · intro outcome k hk hfails hok
    have h := connect_aux_ok_after_fails k outcome 5 0 6 ⟨0, 0⟩ (by omega)
      (by omega)
      (fun j hj => by
        have := hfails j hj
        rwa [Nat.zero_add])
      (by rwa [Nat.zero_add])
    have e1 : (connect_to_instance outcome).2.1.entered = k + 1 := by
      unfold connect_to_instance
      rw [h.2.1]
      simp
    have e2 : (connect_to_instance outcome).2.1.exited = 0 := by
      unfold connect_to_instance
      rw [h.2.2.1]
    have hres : (connect_to_instance outcome).2.2 = IResult.connected ⟨true⟩ := by
      unfold connect_to_instance
      exact h.2.2.2
    have h2 : (connect_to_instance outcome).2.1 = ⟨k + 1, 0⟩ := by
      have heta : (connect_to_instance outcome).2.1 =
          ⟨(connect_to_instance outcome).2.1.entered,
            (connect_to_instance outcome).2.1.exited⟩ := rfl
      rw [heta, e1, e2]
    refine ⟨h2, ?_⟩
    simp [run_then_close, hres, h2, gclient_close, scopeExit]
  · intro outcome hfails
    have h := connect_aux_all_fail 6 outcome 5 0 ⟨0, 0⟩ (by omega) (by omega) hfails
    have e1 : (connect_to_instance outcome).2.1.entered = 6 := by
      unfold connect_to_instance
      rw [h.2.2.1]
    have e2 : (connect_to_instance outcome).2.1.exited = 0 := by
      unfold connect_to_instance
      rw [h.2.2.2.1]
    have hres : (connect_to_instance outcome).2.2 = IResult.sshRaised := by
      unfold connect_to_instance
      exact h.2.2.2.2
    have h2 : (connect_to_instance outcome).2.1 = ⟨6, 0⟩ := by
      have heta : (connect_to_instance outcome).2.1 =
          ⟨(connect_to_instance outcome).2.1.entered,
            (connect_to_instance outcome).2.1.exited⟩ := rfl
      rw [heta, e1, e2]
    refine ⟨h2, ?_⟩
    simp [run_then_close, hres, h2]

/-- Claim C3, witness for the amended theorem: attempts 0 and 1 fail,
attempt 2 succeeds, so 3 scopes are entered and exactly one (the
successful one, at session close) is exited. -/
theorem C3_scope_amended_witness :
    ((2 : Nat) ≤ 5 ∧ (∀ t, t < 2 → c3wOutcome t = ConnectOutcome.sshExc) ∧
      c3wOutcome 2 = ConnectOutcome.ok) ∧
    (connect_to_instance c3wOutcome).2.1 = ⟨3, 0⟩ ∧
    run_then_close c3wOutcome = ⟨3, 1⟩ :=
  ⟨⟨by decide, by decide, by decide⟩,
    (C3_scope_amended.1 c3wOutcome 2 (by decide) (by decide) (by decide)).1,
    (C3_scope_amended.1 c3wOutcome 2 (by decide) (by decide) (by decide)).2⟩

/-- Claim C6, counterexample.  With every connect attempt failing, the
inner loop makes its 6 attempts but the waits actually slept between
them are 0, 1, 2, 3, 4 seconds - five waits, not the claimed
0, 1, 2, ..., 5 (the 5-second sleep is unreachable: failure on the final
attempt re-raises before any sleep). -/
theorem C6_inner_waits_cex :
    attemptsOf (connect_to_instance constFailOutcome).1 = [0, 1, 2, 3, 4, 5] ∧
    sleepsOf (connect_to_instance constFailOutcome).1 = [0, 1, 2, 3, 4] ∧
    sleepsOf (connect_to_instance constFailOutcome).1 ≠ [0, 1, 2, 3, 4, 5] := by
  decide

/-- Claim C6, amended: the inner handshake loop makes exactly 6 connect
attempts, with linearly increasing waits of 0, 1, 2, 3, 4 seconds
between consecutive attempts; a handshake SSHException on any of the
first 5 attempts is swallowed and the loop retries, while an exception
on the 6th attempt propagates out of the inner loop. -/
theorem C6_inner_loop_amended :
    (∀ outcome : Nat → ConnectOutcome,
      (∀ t, t ≤ 5 → outcome t = ConnectOutcome.sshExc) →
      attemptsOf (connect_to_instance outcome).1 = [0, 1, 2, 3, 4, 5] ∧
      sleepsOf (connect_to_instance outcome).1 = [0, 1, 2, 3, 4] ∧
      (connect_to_instance outcome).2.2 = IResult.sshRaised) ∧
    (∀ (outcome : Nat → ConnectOutcome) (k : Nat), k ≤ 5 →
      (∀ t, t < k → outcome t = ConnectOutcome.sshExc) →
      outcome k = ConnectOutcome.ok →
      attemptsOf (connect_to_instance outcome).1 = List.range (k + 1) ∧
      (connect_to_instance outcome).2.2 = IResult.connected ⟨true⟩) := by
  constructor
  · intro outcome hfails
    have h := connect_aux_all_fail 6 outcome 5 0 ⟨0, 0⟩ (by omega) (by omega) hfails
    unfold connect_to_instance
    refine ⟨?_, ?_, ?_⟩
    · rw [h.1]
      decide
    · rw [h.2.1]
      decide
    · exact h.2.2.2.2
  · intro outcome k hk hfails hok
    have h := connect_aux_ok_after_fails k outcome 5 0 6 ⟨0, 0⟩ (by omega)
      (by omega)
      (fun j hj => by
        have := hfails j hj
        rwa [Nat.zero_add])
      (by rwa [Nat.zero_add])
    unfold connect_to_instance
    constructor
    · rw [h.1]
      simp
    · exact h.2.2.2

/-- Claim C6, witness for the amended theorem at the all-fail outcome. -/
theorem C6_inner_loop_amended_witness :
    (∀ t, t ≤ 5 → constFailOutcome t = ConnectOutcome.sshExc) ∧
    attemptsOf (connect_to_instance constFailOutcome).1 = [0, 1, 2, 3, 4, 5] ∧
    sleepsOf (connect_to_instance constFailOutcome).1 = [0, 1, 2, 3, 4] ∧
    (connect_to_instance constFailOutcome).2.2 = IResult.sshRaised :=
  ⟨by decide,
    (C6_inner_loop_amended.1 constFailOutcome (by decide)).1,
    (C6_inner_loop_amended.1 constFailOutcome (by decide)).2.1,
    (C6_inner_loop_amended.1 constFailOutcome (by decide)).2.2⟩

/-- Claim C2 (confirmed): within one outer-loop cycle, a caught exception
continues the retry loop iff it is an HttpError with status 412, an
AirflowException whose message contains the 412 PRECONDITION FAILED
marker, or an SSHException (the RetryableSpec predicate); any other
exception is re-raised at once, so only the one cycle that raised it is
attempted, while a retryable one with remaining budget leads to at least
a second cycle. -/
theorem C2_retry_classification :
    (∀ e, exceptionContinuesLoop e = true ↔ RetryableSpec e) ∧
    (∀ (e : PyExc) (outcome : Nat → Option PyExc) (pub host : String)
        (maxR : Nat), outcome 0 = some e →
      exceptionContinuesLoop e = false →
      get_conn_loop outcome pub host maxR =
        ([GEvent.cycle pub], GResult.raised e)) ∧
    (∀ (e : PyExc) (outcome : Nat → Option PyExc) (pub host : String)
        (maxR : Nat), outcome 0 = some e →
      exceptionContinuesLoop e = true → 0 < maxR →
      2 ≤ countCycles (get_conn_loop outcome pub host maxR).1) := by
  refine ⟨?_, ?_, ?_⟩
  · intro e
    cases e <;>
      simp [exceptionContinuesLoop, caughtByExcept, isHttp412, isAirflow412,
        isSSHException, RetryableSpec]
  · intro e outcome pub host maxR h hc
    simp [get_conn_loop, outerLoop, h, hc]
  · intro e outcome pub host maxR h hc hm
    have hne : (0 : Nat) ≠ maxR := by omega
    have hlb := outerLoop_one_cycle_lb outcome pub host maxR 1 maxR (by omega)
    have hstep : get_conn_loop outcome pub host maxR =
        (GEvent.cycle pub :: GEvent.sleepRand ::
          (outerLoop outcome pub host maxR 1 maxR).1,
          (outerLoop outcome pub host maxR 1 maxR).2) := by
      simp [get_conn_loop, outerLoop, h, hc, hne]
    rw [hstep]
    simp only [countCycles] at hlb ⊢
    have hcount : List.countP isCycle
        (GEvent.cycle pub :: GEvent.sleepRand ::
          (outerLoop outcome pub host maxR 1 maxR).1) =
        List.countP isCycle (outerLoop outcome pub host maxR 1 maxR).1 + 1 := by
      simp [List.countP_cons, isCycle, isSleepRand]
    rw [hcount]
    omega

/-- Claim C2, witness: a 404 HttpError is fatal (single cycle, re-raised)
at a concrete run. -/
theorem C2_retry_classification_witness :
    (fun i => if i = 0 then some (PyExc.httpError 404) else none) 0 =
        some (PyExc.httpError 404) ∧
    exceptionContinuesLoop (PyExc.httpError 404) = false ∧
    get_conn_loop (fun i => if i = 0 then some (PyExc.httpError 404) else none)
        "PUB" "h" 3 =
      ([GEvent.cycle "PUB"], GResult.raised (PyExc.httpError 404)) :=
  ⟨by decide, by decide,
    C2_retry_classification.2.1 (PyExc.httpError 404)
      (fun i => if i = 0 then some (PyExc.httpError 404) else none)
      "PUB" "h" 3 (by decide) (by decide)⟩

/-- Claim C4 (confirmed): with max_retries = 0 and a retryable failure in
the first publish+handshake cycle, get_conn performs exactly one cycle,
executes no backoff sleep, and raises the retries-exceeded
AirflowException immediately. -/
theorem C4_zero_retries :
    ∀ (cfg : HookConfig) (user : String) (collab : Collaborators)
      (gen : Nat → String) (outcome : Nat → Option PyExc) (e : PyExc),
    cfg.max_retries = 0 →
    missingFields (projectFallback cfg collab) = [] →
    outcome 0 = some e →
    exceptionContinuesLoop e = true →
    countCycles (get_conn cfg user collab gen outcome).1 = 1 ∧
    countSleeps (get_conn cfg user collab gen outcome).1 = 0 ∧
    (get_conn cfg user collab gen outcome).2 = GResult.raised maxRetriesExc := by
  intro cfg user collab gen outcome e hmr hmiss hout hcont
  have hguard := (guard_iff_missing (projectFallback cfg collab)).mpr hmiss
  have hguardne : ¬ ((!pyTruthy (projectFallback cfg collab).instance_name ||
      !pyTruthy (projectFallback cfg collab).zone ||
      !pyTruthy (projectFallback cfg collab).project_id) = true) := by
    simp [hguard]
  have hmr2 : (projectFallback cfg collab).max_retries = 0 := by
    unfold projectFallback
    split <;> simp [hmr]
  have hrc := resolve_hostname_counts (projectFallback cfg collab) collab
  have hloop : get_conn_loop outcome (generate_ssh_key (gen 0) user).2
      (resolve_hostname (projectFallback cfg collab) collab).2
      (projectFallback cfg collab).max_retries =
      ([GEvent.cycle (generate_ssh_key (gen 0) user).2],
        GResult.raised maxRetriesExc) := by
    rw [hmr2]
    simp [get_conn_loop, outerLoop, hout, hcont]
  have hconn : get_conn cfg user collab gen outcome =
      ((resolve_hostname (projectFallback cfg collab) collab).1 ++
        GEvent.genKey (generate_ssh_key (gen 0) user).2 ::
          [GEvent.cycle (generate_ssh_key (gen 0) user).2],
        GResult.raised maxRetriesExc) := by
    simp [get_conn, hguardne, hloop]
  rw [hconn]
  refine ⟨?_, ?_, rfl⟩
  · have h0 := hrc.1
    simp only [countCycles] at h0 ⊢
    rw [List.countP_append, h0]
    simp [List.countP_cons, isCycle, isGenKey]
  · have h0 := hrc.2.1
    simp only [countSleeps] at h0 ⊢
    rw [List.countP_append, h0]
    simp [List.countP_cons, isSleepRand]

/-- Claim C4, witness at a concrete input. -/
theorem C4_zero_retries_witness :
    { exCfg with max_retries := 0 }.max_retries = 0 ∧
    missingFields (projectFallback { exCfg with max_retries := 0 } exCollab) = [] ∧
    exOutcome 0 = some (PyExc.sshException "handshake failed") ∧
    exceptionContinuesLoop (PyExc.sshException "handshake failed") = true ∧
    countCycles (get_conn { exCfg with max_retries := 0 } "root" exCollab exGen exOutcome).1 = 1 ∧
    countSleeps (get_conn { exCfg with max_retries := 0 } "root" exCollab exGen exOutcome).1 = 0 ∧
    (get_conn { exCfg with max_retries := 0 } "root" exCollab exGen exOutcome).2 =
      GResult.raised maxRetriesExc :=
  ⟨by decide, by decide, by decide, by decide,
    (C4_zero_retries { exCfg with max_retries := 0 } "root" exCollab exGen
      exOutcome (PyExc.sshException "handshake failed")
      (by decide) (by decide) (by decide) (by decide)).1,
    (C4_zero_retries { exCfg with max_retries := 0 } "root" exCollab exGen
      exOutcome (PyExc.sshException "handshake failed")
      (by decide) (by decide) (by decide) (by decide)).2.1,
    (C4_zero_retries { exCfg with max_retries := 0 } "root" exCollab exGen
      exOutcome (PyExc.sshException "handshake failed")
      (by decide) (by decide) (by decide) (by decide)).2.2⟩

/-- The for/else search of _authorize_compute_engine_instance_metadata
never breaks when no item is keyed "ssh-keys". -/
theorem injectIntoItems_none (keys : String) :
    ∀ items : List MetadataItem, (∀ it, it ∈ items → it.key ≠ "ssh-keys") →
    injectIntoItems keys items = none := by
  intro items
  induction items with
  | nil => intro h; rfl
  | cons it rest ih =>
    intro h
    have hne := h it (List.mem_cons_self it rest)
    have hk : (it.key == "ssh-keys") = false := beq_eq_false_iff_ne.mpr hne
    simp [injectIntoItems, hk,
      ih (fun x hx => h x (List.mem_cons_of_mem it hx))]

/-- The for/else search updates exactly the first "ssh-keys" item,
prepending the new keys to its value. -/
theorem injectIntoItems_found (keys v : String) :
    ∀ (pre post : List MetadataItem), (∀ it, it ∈ pre → it.key ≠ "ssh-keys") →
    injectIntoItems keys (pre ++ ⟨"ssh-keys", v⟩ :: post) =
      some (pre ++ ⟨"ssh-keys", keys ++ v⟩ :: post) := by
  intro pre
  induction pre with
  | nil =>
    intro post h
    simp [injectIntoItems]
  | cons it rest ih =>
    intro post h
    have hne := h it (List.mem_cons_self it rest)
    have hk : (it.key == "ssh-keys") = false := beq_eq_false_iff_ne.mpr hne
    simp [injectIntoItems, hk,
      ih post (fun x hx => h x (List.mem_cons_of_mem it hx))]

/-- Claim C5 (confirmed): metadata credential injection prepends the new
"user:pubkey" line (followed by a newline) to the value of the first
existing "ssh-keys" item, leaving every other item untouched and in
order; when no "ssh-keys" item exists, a fresh item holding just the new
line is appended to the items list. -/
theorem C5_metadata_prepend :
    (∀ (user pubkey v : String) (pre post : List MetadataItem),
      (∀ it, it ∈ pre → it.key ≠ "ssh-keys") →
      authorize_compute_engine_instance_metadata user pubkey
          (pre ++ ⟨"ssh-keys", v⟩ :: post) =
        pre ++ ⟨"ssh-keys", user ++ ":" ++ pubkey ++ "\n" ++ v⟩ :: post) ∧
    (∀ (user pubkey : String) (items : List MetadataItem),
      (∀ it, it ∈ items → it.key ≠ "ssh-keys") →
      authorize_compute_engine_instance_metadata user pubkey items =
        items ++ [⟨"ssh-keys", user ++ ":" ++ pubkey ++ "\n"⟩]) := by
  constructor
  · intro user pubkey v pre post h
    simp only [authorize_compute_engine_instance_metadata]
    rw [injectIntoItems_found (user ++ ":" ++ pubkey ++ "\n") v pre post h]
  · intro user pubkey items h
    simp only [authorize_compute_engine_instance_metadata]
    rw [injectIntoItems_none (user ++ ":" ++ pubkey ++ "\n") items h]

/-- Claim C5, witness at the concrete metadata of the claim: existing
value "alice:KEY1" plus newline, injecting user bob with key KEY2. -/
theorem C5_metadata_prepend_witness :
    (∀ it, it ∈ ([⟨"other", "x"⟩] : List MetadataItem) → it.key ≠ "ssh-keys") ∧
    authorize_compute_engine_instance_metadata "bob" "KEY2"
        [⟨"other", "x"⟩, ⟨"ssh-keys", "alice:KEY1\n"⟩] =
      [⟨"other", "x"⟩, ⟨"ssh-keys", "bob:KEY2\nalice:KEY1\n"⟩] :=
  ⟨by decide, by
    have h := C5_metadata_prepend.1 "bob" "KEY2" "alice:KEY1\n"
      [⟨"other", "x"⟩] [] (by decide)
    have hstr : ("bob" ++ ":" ++ "KEY2" ++ "\n" ++ "alice:KEY1\n" : String) =
        "bob:KEY2\nalice:KEY1\n" := by decide
    rw [hstr] at h
    simpa using h⟩

/-- Claim C7 (confirmed): when the hostname attribute is set (truthy),
get_conn uses exactly that string as the address and performs no
directory lookup; otherwise it queries get_instance_address, requesting
the internal address exactly when use_internal_ip or use_iap_tunnel is
set. -/
theorem C7_address_resolution :
    ∀ (cfg : HookConfig) (collab : Collaborators),
    (∀ s, cfg.hostname = some s → s ≠ "" →
      resolve_hostname cfg collab = ([], s)) ∧
    (pyTruthy cfg.hostname = false →
      resolve_hostname cfg collab =
        ([GEvent.resolveAddress (cfg.use_internal_ip || cfg.use_iap_tunnel)],
          collab.instanceAddress (cfg.use_internal_ip || cfg.use_iap_tunnel))) := by
  intro cfg collab
  constructor
  · intro s hs hne
    have hb : (s == "") = false := beq_eq_false_iff_ne.mpr hne
    have ht : pyTruthy (some s) = true := by
      simp [pyTruthy, hb]
    simp [resolve_hostname, hs, ht]
  · intro hf
    simp [resolve_hostname, hf]

/-- Claim C7, witness: with the hostname override "10.0.0.5" the
resolution step does no lookup and returns exactly that string. -/
theorem C7_address_resolution_witness :
    (exCfg.hostname = some "10.0.0.5" ∧ "10.0.0.5" ≠ "") ∧
    resolve_hostname exCfg exCollab = ([], "10.0.0.5") :=
  ⟨⟨by decide, by decide⟩,
    (C7_address_resolution exCfg exCollab).1 "10.0.0.5" (by decide) (by decide)⟩

/-- Claim C8 (confirmed): the OS Login strategy registers the key with
expiration timestamp (now + expire_time) converted to microseconds, and
the username returned to the handshake step is the username of the first
POSIX account of the returned login profile. -/
theorem C8_os_login :
    ∀ (now expire_time : Nat) (pubkey : String) (a : PosixAccount)
      (rest : List PosixAccount),
    authorize_os_login now expire_time pubkey ⟨a :: rest⟩ =
      (⟨pubkey, (now + expire_time) * 1000000⟩, some a.username) := by
  intro now expire_time pubkey a rest
  rfl

/-- Claim C9 (confirmed): for a gcpssh connection,
_load_connection_config overwrites use_internal_ip, use_iap_tunnel and
use_oslogin with _boolify of the corresponding extra fields regardless
of their previous values; _boolify maps exactly the boolean true and the
case-insensitive string "true" to True, every other value - including
None for an absent field - to False, so a constructor-supplied
use_oslogin = True is silently replaced by False when the field is
absent. -/
theorem C9_boolify_overwrite :
    (∀ (prev : LoadedBools) (v1 v2 v3 : PyVal),
      load_connection_config_bools prev v1 v2 v3 =
        ⟨_boolify v1, _boolify v2, _boolify v3⟩) ∧
    (∀ (prev : LoadedBools) (v1 v2 : PyVal),
      (load_connection_config_bools prev v1 v2 PyVal.pynone).use_oslogin = false) ∧
    (∀ v : PyVal, _boolify v = true ↔
      (v = PyVal.pybool true ∨ ∃ s, v = PyVal.pystr s ∧ s.toLower = "true")) := by
  refine ⟨?_, ?_, ?_⟩
  · intro prev v1 v2 v3
    rfl
  · intro prev v1 v2
    rfl
  · intro v
    cases v with
    | pybool b => cases b <;> simp [_boolify]
    | pystr s =>
      by_cases h1 : s.toLower = "false"
      · have hft : ("false" : String) ≠ "true" := by decide
        simp [_boolify, h1, hft]
      · by_cases h2 : s.toLower = "true"
        · simp [_boolify, h1, h2]
        · simp [_boolify, h1, h2]
    | pynone => simp [_boolify]
    | pyother t => simp [_boolify]

/-- Claim C9, witness: the boolean True is kept, and an absent (None)
use_oslogin field forces the attribute to False regardless of the
previous (constructor-supplied) True. -/
theorem C9_boolify_overwrite_witness :
    _boolify (PyVal.pybool true) = true ∧
    (load_connection_config_bools ⟨false, false, true⟩
        PyVal.pynone PyVal.pynone PyVal.pynone).use_oslogin = false :=
  ⟨(C9_boolify_overwrite.2.2 (PyVal.pybool true)).mpr (Or.inl rfl),
    C9_boolify_overwrite.2.1 ⟨false, false, true⟩ PyVal.pynone PyVal.pynone⟩

/-- Claim C10 (confirmed): when after configuration loading (and the
project-id fallback) any of instance_name, zone, project_id is unset,
get_conn raises an AirflowException whose message embeds exactly the
list of missing field names, producing no events at all: no address
lookup, no key generation, no publish+handshake cycle, no sleep. -/
theorem C10_missing_fields :
    ∀ (cfg : HookConfig) (user : String) (collab : Collaborators)
      (gen : Nat → String) (outcome : Nat → Option PyExc),
    missingFields (projectFallback cfg collab) ≠ [] →
    get_conn cfg user collab gen outcome =
      ([], GResult.raised (PyExc.airflowException
        (missingMsg (missingFields (projectFallback cfg collab))))) := by
  intro cfg user collab gen outcome hne
  have hguard : (!pyTruthy (projectFallback cfg collab).instance_name ||
      !pyTruthy (projectFallback cfg collab).zone ||
      !pyTruthy (projectFallback cfg collab).project_id) = true := by
    cases hb : (!pyTruthy (projectFallback cfg collab).instance_name ||
        !pyTruthy (projectFallback cfg collab).zone ||
        !pyTruthy (projectFallback cfg collab).project_id) with
    | false => exact absurd ((guard_iff_missing _).mp hb) hne
    | true => rfl
  simp [get_conn, hguard]

/-- Claim C10, witness: missing instance_name and project_id (the latter
falsy both on the hook and on the compute hook) produce the
configuration error with exactly those two names, and no events. -/
theorem C10_missing_fields_witness :
    missingFields (projectFallback badCfg badCollab) ≠ [] ∧
    get_conn badCfg "root" badCollab exGen exOutcome =
      ([], GResult.raised (PyExc.airflowException
        (missingMsg (missingFields (projectFallback badCfg badCollab))))) :=
  ⟨by decide, C10_missing_fields badCfg "root" badCollab exGen exOutcome (by decide)⟩

end ComputeSSH
